import Mathlib

/-! metrixd: environment detection and exporter start-up

A shallow embedding of `main.go`: the host-type detection routine
`detectHostType` with its helpers `runOK` and `fileExists`, and the
registration / routing part of `main`.

The operating system is a parameter (`Env`): what a spawned command does, what
`os.Stat` answers and what `os.ReadFile` answers.  Every call into the
operating system is logged as an `Effect`, so that statements about the order
and the number of side effects can be made.

Go strings that are inspected character by character (file contents) are
modelled as `List Char`, the sequence of runes Go decodes from the bytes (a
byte that is not valid UTF-8 decodes to U+FFFD, which is neither white space
nor part of an ASCII needle); the only operations applied to them are
`strings.TrimSpace`, `strings.Contains` with ASCII needles and a comparison of
`len` with zero.
-/

namespace Metrixd

/-! ## The operating system -/

/-- What happens to a command started by `exec.Cmd.Run` under a deadline. -/
inductive CmdOutcome where
  /-- The process was started and ended by itself with this exit status. -/
  | exited (code : Nat)
  /-- The process could not be started (not found, permission denied). -/
  | spawnFailure
  /-- The deadline of the context passed and the process was killed. -/
  | timedOut
  deriving DecidableEq, Repr

/-- Errors of `exec.Cmd.Run`. -/
inductive RunError where
  | exitError (code : Nat)
  | startError
  | deadlineExceeded
  deriving DecidableEq, Repr

/-- Errors of `os.Stat` and `os.ReadFile`. -/
inductive IOError where
  | notExist
  | permission
  | isDirectory
  | other
  deriving DecidableEq, Repr

/-- The file types `os.FileMode` tells apart once symbolic links are followed. -/
inductive FileKind where
  | regular
  | directory
  | namedPipe
  | socket
  | device
  | charDevice
  | irregular
  deriving DecidableEq, Repr

/-- The part of `os.FileInfo` the program looks at. -/
structure FileInfo where
  kind : FileKind
  deriving DecidableEq, Repr

/-- The method `FileInfo.IsDir`. -/
def FileInfo.IsDir (st : FileInfo) : Bool :=
  st.kind == FileKind.directory

/-- The method `FileMode.IsRegular`. -/
def FileInfo.IsRegular (st : FileInfo) : Bool :=
  st.kind == FileKind.regular

/-- The environment the process runs in. -/
structure Env where
  /-- Outcome of running `name args...` under a deadline of `timeout` nanoseconds. -/
  run : Nat → String → List String → CmdOutcome
  /-- Answer of `os.Stat path`. -/
  stat : String → Except IOError FileInfo
  /-- Answer of `os.ReadFile path`, the contents decoded into runes. -/
  readFile : String → Except IOError (List Char)

/-- A call into the operating system. -/
inductive Effect where
  | spawn (timeout : Nat) (name : String) (args : List String)
  | stat (path : String)
  | readFile (path : String)
  deriving DecidableEq, Repr

/-- Is the effect the start of an external process? -/
def Effect.isSpawn : Effect → Bool
  | .spawn _ _ _ => true
  | _ => false

/-- Is the effect an access to the file system? -/
def Effect.isFile : Effect → Bool
  | .spawn _ _ _ => false
  | _ => true

/-- Computations that read the environment and log their effects. -/
def Sys (α : Type) : Type := Env → List Effect → α × List Effect

instance : Monad Sys where
  pure a := fun _ log => (a, log)
  bind m f := fun env log => f (m env log).1 env (m env log).2

/-- The constant `time.Second`, in nanoseconds. -/
def Second : Nat := 1000000000

/-- The call `exec.CommandContext(ctx, name, args...).Run()` with a context that expires
after `timeout`: `none` is Go's `nil` error. -/
def cmdRun (timeout : Nat) (name : String) (args : List String) : Sys (Option RunError) :=
  fun env log =>
    (match env.run timeout name args with
      | .exited 0 => none
      | .exited (c + 1) => some (.exitError (c + 1))
      | .spawnFailure => some .startError
      | .timedOut => some .deadlineExceeded,
     log ++ [.spawn timeout name args])

/-- The call `os.Stat`. -/
def osStat (path : String) : Sys (Except IOError FileInfo) :=
  fun env log => (env.stat path, log ++ [.stat path])

/-- The call `os.ReadFile`. -/
def osReadFile (path : String) : Sys (Except IOError (List Char)) :=
  fun env log => (env.readFile path, log ++ [.readFile path])

/-! ## Go's `strings` and `unicode` functions used by the program -/

/-- The function `unicode.IsSpace`: the Latin-1 spaces and the other code points with the
Unicode property White_Space. -/
def isSpace (r : Char) : Bool :=
  let n := r.toNat
  if n ≤ 0xFF then
    n == 0x09 || n == 0x0A || n == 0x0B || n == 0x0C || n == 0x0D || n == 0x20 ||
      n == 0x85 || n == 0xA0
  else
    n == 0x1680 || (0x2000 ≤ n && n ≤ 0x200A) || n == 0x2028 || n == 0x2029 ||
      n == 0x202F || n == 0x205F || n == 0x3000

/-- The function `strings.TrimSpace`: white space is removed at both ends. -/
def TrimSpace (s : List Char) : List Char :=
  ((s.dropWhile isSpace).reverse.dropWhile isSpace).reverse

/-- The function `strings.Contains`: does `substr` occur somewhere in `s`? -/
def Contains (s substr : List Char) : Bool :=
  match s with
  | [] => substr.isPrefixOf []
  | c :: cs => substr.isPrefixOf (c :: cs) || Contains cs substr

/-! ## `main.go` -/

/-- The function `runOK`: run a command under a timeout, `true` on exit status zero. -/
def runOK (timeout : Nat) (name : String) (args : List String) : Sys Bool := do
  let err ← cmdRun timeout name args
  if err ≠ none then
    return false
  return true

/-- The function `fileExists`: the path exists and is not a directory. -/
def fileExists (path : String) : Sys Bool := do
  let r ← osStat path
  match r with
  | .ok st => return !st.IsDir
  | .error _ => return false

/-- The test `detectHostType` applies to the contents of `/proc/1/cgroup`. -/
def cgroupMatches (s : List Char) : Bool :=
  Contains s "docker".toList ||
    Contains s "kubepods".toList ||
    Contains s "containerd".toList ||
    Contains s "libpod".toList ||
    Contains s "podman".toList ||
    Contains s "lxc".toList

/-- The function `detectHostType` with its effects. -/
def detectHostTypeSys : Sys String := do
  if (← runOK (2 * Second) "systemd-detect-virt" ["--container"]) then
    return "container"
  if (← runOK (2 * Second) "systemd-detect-virt" ["--vm"]) then
    return "vm"
  if (← fileExists "/.dockerenv") then
    return "container"
  match (← osReadFile "/run/systemd/container") with
  | .ok b =>
    if (TrimSpace b).length > 0 then
      return "container"
  | .error _ => pure ()
  match (← osReadFile "/proc/1/cgroup") with
  | .ok b =>
    let s := b
    if cgroupMatches s then
      return "container"
  | .error _ => pure ()
  return "physical"

/-- The string `detectHostType` returns in the environment `env`. -/
def detectHostType (env : Env) : String :=
  (detectHostTypeSys env []).1

/-- The calls into the operating system `detectHostType` makes in `env`, in order. -/
def detectEffects (env : Env) : List Effect :=
  (detectHostTypeSys env []).2

/-! ## Registration and routing in `main` -/

/-- The type `prometheus.GaugeOpts`; `ConstLabels` is a Go map, listed here in source order. -/
structure GaugeOpts where
  Name : String
  Help : String
  ConstLabels : List (String × String)
  deriving DecidableEq, Repr

/-- A gauge object: its options and its current value (a `float64` in Go; the
program only ever stores the initial 0 and the constant 1). -/
structure Gauge where
  opts : GaugeOpts
  value : Int
  deriving DecidableEq, Repr

/-- The constructor `prometheus.NewGauge`: a fresh gauge holds 0. -/
def NewGauge (opts : GaugeOpts) : Gauge :=
  { opts := opts, value := 0 }

/-- The method `Gauge.Set`. -/
def Gauge.Set (g : Gauge) (v : Int) : Gauge :=
  { g with value := v }

/-- What can be registered: the two standard collectors, or a gauge, referred to
by the variable of `main` that holds it (the registry keeps a reference, not a copy). -/
inductive Collector where
  | processCollector
  | goCollector
  | gauge (var : String)
  deriving DecidableEq, Repr

/-- An `http.Handler`. -/
inductive Handler where
  /-- The handler `promhttp.HandlerFor` returns for the registry of `main`. -/
  | metricsHandler
  /-- The handler `http.NotFoundHandler()`, what a `ServeMux` uses when no pattern matches. -/
  | notFoundHandler
  /-- The handler `http.RedirectHandler(url, code)` a `ServeMux` answers with when
  the request path is not in canonical form. -/
  | redirectHandler (url : String)
  deriving DecidableEq, Repr

/-- The fields of `http.Server` set by `main` (durations in nanoseconds). -/
structure Server where
  Addr : String
  ReadHeaderTimeout : Nat
  ReadTimeout : Nat
  WriteTimeout : Nat
  IdleTimeout : Nat
  deriving DecidableEq, Repr

/-- The objects `main` builds before it starts to serve. -/
structure MainState where
  /-- The value of the local variable `hostType` (empty until assigned). -/
  hostType : String
  /-- The gauge objects, by the local variable that points to them. -/
  gauges : List (String × Gauge)
  /-- The collectors registered in `reg`, in registration order. -/
  reg : List Collector
  /-- The patterns of `mux` with their handlers, in registration order. -/
  mux : List (String × Handler)
  /-- The server value `srv`. -/
  srv : Option Server
  /-- The calls into the operating system made so far by the detection. -/
  effects : List Effect
  deriving Repr

/-- The state at the entry of `main`. -/
def MainState.init : MainState :=
  { hostType := "", gauges := [], reg := [], mux := [], srv := none, effects := [] }

/-- The statement `reg.MustRegister(cs...)`. -/
def mustRegister (cs : List Collector) (st : MainState) : MainState :=
  { st with reg := st.reg ++ cs }

/-- The statement `hostType := detectHostType()`. -/
def assignHostType (env : Env) (st : MainState) : MainState :=
  let r := detectHostTypeSys env st.effects
  { st with hostType := r.1, effects := r.2 }

/-- The statement `v := prometheus.NewGauge(opts)`, the options computed from the current state. -/
def assignNewGauge (var : String) (opts : MainState → GaugeOpts) (st : MainState) : MainState :=
  { st with gauges := st.gauges.filter (fun e => e.1 != var) ++ [(var, NewGauge (opts st))] }

/-- The statement `v.Set(x)` for the gauge held by the variable `var`. -/
def gaugeSet (var : String) (x : Int) (st : MainState) : MainState :=
  { st with gauges := st.gauges.map (fun e => if e.1 == var then (e.1, e.2.Set x) else e) }

/-- The statement `mux.Handle(pattern, h)`. -/
def muxHandle (pattern : String) (h : Handler) (st : MainState) : MainState :=
  { st with mux := st.mux ++ [(pattern, h)] }

/-- The assignment of the `http.Server` value to `srv`. -/
def assignServer (listenAddr : String) (st : MainState) : MainState :=
  let srv : Server :=
    { Addr := listenAddr
      ReadHeaderTimeout := 5 * Second
      ReadTimeout := 10 * Second
      WriteTimeout := 10 * Second
      IdleTimeout := 30 * Second }
  { st with srv := some srv }

/-- The package variable `version`, "dev" unless replaced at link time. -/
def version : String := "dev"

/-- The default of the flag `-listen-address`. -/
def defaultListenAddr : String := "127.0.0.1:8080"

/-- The statements of `main` that build the registry, the mux and the server
value, in source order (the start-up log line and `srv.ListenAndServe()` follow
them).  `version` is the value of the package variable, `goVersion` is
`runtime.Version()` and `listenAddr` the parsed flag. -/
def mainSteps (env : Env) (version goVersion listenAddr : String) :
    List (MainState → MainState) :=
  [ mustRegister [.processCollector, .goCollector],
    assignHostType env,
    assignNewGauge "hostEnvGauge" (fun st =>
      { Name := "host_environment_info"
        Help := "Тип окружения хоста (one-hot): type=\x7bvm|container|physical\x7d"
        ConstLabels := [("type", st.hostType)] }),
    gaugeSet "hostEnvGauge" 1,
    mustRegister [.gauge "hostEnvGauge"],
    assignNewGauge "buildInfo" (fun _ =>
      { Name := "metrixd_build_info"
        Help := "Информация о сборке экспортерa"
        ConstLabels := [("version", version), ("go_version", goVersion)] }),
    gaugeSet "buildInfo" 1,
    mustRegister [.gauge "buildInfo"],
    muxHandle "/" .metricsHandler,
    muxHandle "/metrics" .metricsHandler,
    assignServer listenAddr ]

/-- Every state `main` passes through, the entry state first. -/
def mainStates (env : Env) (version goVersion listenAddr : String) : List MainState :=
  List.scanl (fun st f => f st) MainState.init (mainSteps env version goVersion listenAddr)

/-- The state in which `main` calls `srv.ListenAndServe()`. -/
def mainFinal (env : Env) (version goVersion listenAddr : String) : MainState :=
  List.foldl (fun st f => f st) MainState.init (mainSteps env version goVersion listenAddr)

/-- One entry of a scrape: the two standard collectors report families read from
the operating system and the runtime at scrape time; a gauge reports its name,
its constant labels and its value. -/
inductive Sample where
  | processMetrics
  | goMetrics
  | gauge (name : String) (labels : List (String × String)) (value : Int)
  deriving DecidableEq, Repr

/-- The call `reg.Gather()`: what the registered collectors report. -/
def gather (st : MainState) : List Sample :=
  st.reg.filterMap fun c =>
    match c with
    | .processCollector => some .processMetrics
    | .goCollector => some .goMetrics
    | .gauge var =>
      (st.gauges.lookup var).map fun g => .gauge g.opts.Name g.opts.ConstLabels g.value

/-- The `ServeMux` pattern selection for host-less patterns: an exact match wins,
otherwise the longest registered pattern that ends in a slash and is a prefix
of the path; `none` when nothing matches. -/
def muxMatch (mux : List (String × Handler)) (path : String) : Option (String × Handler) :=
  match mux.find? (fun e => e.1 == path) with
  | some e => some e
  | none =>
    (mux.filter fun e =>
        e.1.toList.getLast? == some '/' && e.1.toList.isPrefixOf path.toList).foldl
      (fun best e =>
        match best with
        | none => some e
        | some b => if b.1.length < e.1.length then some e else some b)
      none

/-- The method `ServeMux.handler`: the handler of the matching pattern, or the
not-found handler. -/
def muxLookup (mux : List (String × Handler)) (path : String) : Handler :=
  match muxMatch mux path with
  | some e => e.2
  | none => .notFoundHandler

/-- The elements of a path: the pieces between the slashes. -/
def splitSlash : List Char → List (List Char)
  | [] => [[]]
  | c :: cs =>
    match splitSlash cs with
    | [] => [[]]
    | seg :: rest => if c = '/' then [] :: seg :: rest else (c :: seg) :: rest

/-- The loop of `path.Clean` on a rooted path, over the elements: an empty
element and `.` are dropped, `..` removes the element before it (none at the
root), any other element is kept. -/
def cleanElems (out : List (List Char)) : List (List Char) → List (List Char)
  | [] => out
  | seg :: rest =>
    if seg = [] ∨ seg = ['.'] then cleanElems out rest
    else if seg = ['.', '.'] then cleanElems out.dropLast rest
    else cleanElems (out ++ [seg]) rest

/-- The function `path.Clean` on a rooted path: the kept elements, each after a
single slash; the root alone when none is kept. -/
def pathClean (p : List Char) : List Char :=
  '/' :: List.intercalate ['/'] (cleanElems [] (splitSlash p))

/-- The function `cleanPath` of `net/http`: the canonical form of a request
path, rooted, without `.`, `..` and repeated slashes, a trailing slash kept. -/
def cleanPath (p : String) : String :=
  if p = "" then "/"
  else
    let p1 := if p.toList.head? = some '/' then p.toList else '/' :: p.toList
    let np := pathClean p1
    if p1.getLast? = some '/' ∧ np ≠ ['/'] then String.mk (np ++ ['/']) else String.mk np

/-- The test of `ServeMux` for the redirect from `/tree` to `/tree/`: the path
itself is not registered, the path followed by a slash is. -/
def shouldRedirect (mux : List (String × Handler)) (path : String) : Bool :=
  if mux.any (fun e => e.1 == path) then false
  else if path.toList = [] then false
  else if mux.any (fun e => e.1.toList == path.toList ++ ['/']) then
    path.toList.getLast? != some '/'
  else false

/-- The method `ServeMux.Handler` for a request (other than CONNECT) with the URL
path `urlPath`: a redirect to `/tree/` or to the clean path when the path is not
canonical, otherwise the handler of the matching pattern. -/
def muxHandler (mux : List (String × Handler)) (urlPath : String) : Handler :=
  let path := cleanPath urlPath
  if shouldRedirect mux path then .redirectHandler (path ++ "/")
  else if path ≠ urlPath then .redirectHandler path
  else muxLookup mux urlPath

/-- The status code of the redirects of `ServeMux` (307 in the current `net/http`,
301 in older releases). -/
def redirectStatus : Nat := 307

/-- An HTTP response: the status code, the `Location` header of a redirect and,
for a scrape, the samples in the body. -/
structure Response where
  status : Nat
  location : Option String
  samples : List Sample
  deriving DecidableEq, Repr

/-- The response of the server built by `main` to a request for `path`: the
scrape of the registry, a redirect to the canonical path, or the default 404. -/
def serveHTTP (st : MainState) (path : String) : Response :=
  match muxHandler st.mux path with
  | .metricsHandler => { status := 200, location := none, samples := gather st }
  | .redirectHandler url => { status := redirectStatus, location := some url, samples := [] }
  | .notFoundHandler => { status := 404, location := none, samples := [] }

/-! ## Vocabulary of the statements -/

/-- The five calls `detectHostType` can make, in program order. -/
def probeSequence : List Effect :=
  [.spawn (2 * Second) "systemd-detect-virt" ["--container"],
   .spawn (2 * Second) "systemd-detect-virt" ["--vm"],
   .stat "/.dockerenv",
   .readFile "/run/systemd/container",
   .readFile "/proc/1/cgroup"]

/-- The substrings that mark a container runtime in `/proc/1/cgroup`. -/
def cgroupNeedles : List (List Char) :=
  ["docker".toList, "kubepods".toList, "containerd".toList, "libpod".toList,
   "podman".toList, "lxc".toList]

/-- The command `systemd-detect-virt --container` exits with status zero. -/
def containerQueryOK (env : Env) : Prop :=
  env.run (2 * Second) "systemd-detect-virt" ["--container"] = .exited 0

/-- The command `systemd-detect-virt --vm` exits with status zero. -/
def vmQueryOK (env : Env) : Prop :=
  env.run (2 * Second) "systemd-detect-virt" ["--vm"] = .exited 0

/-- The path `/.dockerenv` answers to `os.Stat` and is not a directory. -/
def sentinelPresent (env : Env) : Prop :=
  ∃ st, env.stat "/.dockerenv" = .ok st ∧ st.kind ≠ FileKind.directory

/-- The file `/run/systemd/container` is readable and holds a character that is not white space. -/
def markerPresent (env : Env) : Prop :=
  ∃ b, env.readFile "/run/systemd/container" = .ok b ∧ ∃ c ∈ b, isSpace c = false

/-- The file `/proc/1/cgroup` is readable and one of the needles occurs in its contents. -/
def cgroupPresent (env : Env) : Prop :=
  ∃ s, env.readFile "/proc/1/cgroup" = .ok s ∧ ∃ n ∈ cgroupNeedles, n <:+: s

instance (env : Env) : Decidable (containerQueryOK env) := by
  unfold containerQueryOK; infer_instance

instance (env : Env) : Decidable (vmQueryOK env) := by
  unfold vmQueryOK; infer_instance

/-- The value of the sentinel test of `detectHostType`. -/
def sentinelCheck (env : Env) : Bool :=
  match env.stat "/.dockerenv" with
  | .ok st => !st.IsDir
  | .error _ => false

/-- The value of the runtime-marker test of `detectHostType`. -/
def markerCheck (env : Env) : Bool :=
  match env.readFile "/run/systemd/container" with
  | .ok b => decide (0 < (TrimSpace b).length)
  | .error _ => false

/-- The value of the cgroup test of `detectHostType`. -/
def cgroupCheck (env : Env) : Bool :=
  match env.readFile "/proc/1/cgroup" with
  | .ok b => cgroupMatches b
  | .error _ => false

/-! ## Sample environments -/

/-- No detection utility and none of the three files. -/
def envBare : Env where
  run := fun _ _ _ => .spawnFailure
  stat := fun _ => .error .notExist
  readFile := fun _ => .error .notExist

/-- Both queries of the utility exit with zero, and `/.dockerenv` is absent. -/
def envToolBoth : Env where
  run := fun _ _ _ => .exited 0
  stat := fun _ => .error .notExist
  readFile := fun _ => .error .notExist

/-- The utility reports a virtual machine while the files look like a container. -/
def envToolVm : Env where
  run := fun _ _ args => if args = ["--vm"] then .exited 0 else .exited 1
  stat := fun _ => .ok { kind := .regular }
  readFile := fun _ => .ok "docker".toList

/-- No utility, `/.dockerenv` is a regular file. -/
def envDockerenv : Env where
  run := fun _ _ _ => .spawnFailure
  stat := fun p => if p = "/.dockerenv" then .ok { kind := .regular } else .error .notExist
  readFile := fun _ => .error .notExist

/-- No utility, `/.dockerenv` is a named pipe. -/
def envPipe : Env where
  run := fun _ _ _ => .spawnFailure
  stat := fun p => if p = "/.dockerenv" then .ok { kind := .namedPipe } else .error .notExist
  readFile := fun _ => .error .notExist

/-- The utility hangs, `/run/systemd/container` names the runtime. -/
def envMarker : Env where
  run := fun _ _ _ => .timedOut
  stat := fun _ => .error .notExist
  readFile := fun p =>
    if p = "/run/systemd/container" then .ok "docker\n".toList else .error .notExist

/-- No utility, no sentinel, a Kubernetes cgroup path. -/
def envKube : Env where
  run := fun _ _ _ => .spawnFailure
  stat := fun _ => .error .notExist
  readFile := fun p =>
    if p = "/proc/1/cgroup" then .ok "12:pids:/kubepods/besteffort/pod1".toList
    else .error .notExist

/-! ## Lemmas on the string functions -/

theorem Contains_iff_infix (s substr : List Char) :
    Contains s substr = true ↔ substr <:+: s := by
  induction s with
  | nil => simp [Contains, List.isPrefixOf_iff_prefix]
  | cons c cs ih =>
    rw [Contains, Bool.or_eq_true, ih, List.isPrefixOf_iff_prefix, List.infix_cons_iff]

theorem cgroupMatches_iff (s : List Char) :
    cgroupMatches s = true ↔ ∃ n ∈ cgroupNeedles, n <:+: s := by
  simp [cgroupMatches, cgroupNeedles, Contains_iff_infix, or_assoc]

theorem TrimSpace_eq_nil_iff (s : List Char) :
    TrimSpace s = [] ↔ ∀ c ∈ s, isSpace c = true := by
  unfold TrimSpace
  rw [List.reverse_eq_nil_iff, List.dropWhile_eq_nil_iff]
  constructor
  · intro h
    by_contra hne
    have hd : s.dropWhile isSpace ≠ [] := by
      rw [Ne, List.dropWhile_eq_nil_iff]; exact hne
    have h1 := List.head_dropWhile_not isSpace s hd
    have h2 := h _ (List.mem_reverse.mpr (List.head_mem hd))
    rw [h1] at h2
    exact Bool.false_ne_true h2
  · intro h x hx
    have : s.dropWhile isSpace = [] := List.dropWhile_eq_nil_iff.mpr h
    rw [this] at hx
    simp at hx

theorem TrimSpace_length_pos_iff (s : List Char) :
    0 < (TrimSpace s).length ↔ ∃ c ∈ s, isSpace c = false := by
  rw [List.length_pos, Ne, TrimSpace_eq_nil_iff]
  simp

/-! ## The detection as a decision list -/

theorem runOK_eq (t : Nat) (n : String) (a : List String) (env : Env) (log : List Effect) :
    runOK t n a env log = (decide (env.run t n a = .exited 0), log ++ [.spawn t n a]) := by
  simp only [runOK, cmdRun, bind, pure]
  cases h : env.run t n a with
  | exited c => cases c <;> simp
  | spawnFailure => simp
  | timedOut => simp

theorem fileExists_eq (p : String) (env : Env) (log : List Effect) :
    fileExists p env log =
      ((match env.stat p with
        | .ok st => !st.IsDir
        | .error _ => false), log ++ [.stat p]) := by
  simp only [fileExists, osStat, bind, pure]
  cases h : env.stat p <;> simp

theorem detectHostTypeSys_eq (env : Env) :
    detectHostTypeSys env [] =
      if containerQueryOK env then ("container", probeSequence.take 1)
      else if vmQueryOK env then ("vm", probeSequence.take 2)
      else if sentinelCheck env then ("container", probeSequence.take 3)
      else if markerCheck env then ("container", probeSequence.take 4)
      else if cgroupCheck env then ("container", probeSequence)
      else ("physical", probeSequence) := by
  unfold detectHostTypeSys
  simp only [bind, pure, runOK_eq, fileExists_eq, osReadFile, containerQueryOK, vmQueryOK,
    sentinelCheck, markerCheck, cgroupCheck, probeSequence]
  cases hs : env.readFile "/run/systemd/container" <;>
    cases hc : env.readFile "/proc/1/cgroup" <;>
    cases hd : env.stat "/.dockerenv" <;>
    simp <;> split_ifs <;> simp_all

theorem sentinelCheck_iff (env : Env) : sentinelCheck env = true ↔ sentinelPresent env := by
  unfold sentinelCheck sentinelPresent
  cases h : env.stat "/.dockerenv" <;> simp [FileInfo.IsDir]

theorem markerCheck_iff (env : Env) : markerCheck env = true ↔ markerPresent env := by
  unfold markerCheck markerPresent
  cases h : env.readFile "/run/systemd/container" <;> simp [TrimSpace_length_pos_iff]

theorem cgroupCheck_iff (env : Env) : cgroupCheck env = true ↔ cgroupPresent env := by
  unfold cgroupCheck cgroupPresent
  cases h : env.readFile "/proc/1/cgroup" <;> simp [cgroupMatches_iff]

theorem fileExists_iff (env : Env) :
    (fileExists "/.dockerenv" env []).1 = true ↔ sentinelPresent env := by
  rw [fileExists_eq, ← sentinelCheck_iff]; rfl

/-- The result and the effects of `detectHostType`, by the first step that matches. -/
theorem detect_cases (env : Env) :
    (containerQueryOK env → detectHostTypeSys env [] = ("container", probeSequence.take 1)) ∧
    (¬ containerQueryOK env → vmQueryOK env →
      detectHostTypeSys env [] = ("vm", probeSequence.take 2)) ∧
    (¬ containerQueryOK env → ¬ vmQueryOK env → sentinelPresent env →
      detectHostTypeSys env [] = ("container", probeSequence.take 3)) ∧
    (¬ containerQueryOK env → ¬ vmQueryOK env → ¬ sentinelPresent env → markerPresent env →
      detectHostTypeSys env [] = ("container", probeSequence.take 4)) ∧
    (¬ containerQueryOK env → ¬ vmQueryOK env → ¬ sentinelPresent env → ¬ markerPresent env →
      cgroupPresent env → detectHostTypeSys env [] = ("container", probeSequence)) ∧
    (¬ containerQueryOK env → ¬ vmQueryOK env → ¬ sentinelPresent env → ¬ markerPresent env →
      ¬ cgroupPresent env → detectHostTypeSys env [] = ("physical", probeSequence)) := by
  rw [detectHostTypeSys_eq]
  simp only [← sentinelCheck_iff, ← markerCheck_iff, ← cgroupCheck_iff]
  refine ⟨?_, ?_, ?_, ?_, ?_, ?_⟩ <;> intros <;> simp_all

/-! ## The environment detection -/

/-- C1: in every environment (whatever the two `systemd-detect-virt` runs do and
whatever `os.Stat` and `os.ReadFile` answer for the three files) `detectHostType`
returns a value, and that value is one of "container", "vm", "physical". -/
theorem detectHostType_total (env : Env) :
    detectHostType env = "container" ∨ detectHostType env = "vm" ∨
      detectHostType env = "physical" := by
  unfold detectHostType
  rw [detectHostTypeSys_eq]
  split_ifs <;> simp

/-- C2: when `systemd-detect-virt --container` exits with status zero the result
is "container", whatever the `--vm` query and the three files would say. -/
theorem detectHostType_container_priority (env : Env)
    (h : env.run (2 * Second) "systemd-detect-virt" ["--container"] = .exited 0) :
    detectHostType env = "container" := by
  unfold detectHostType
  rw [(detect_cases env).1 h]

/-- C2 at an environment where the `--vm` query exits with zero as well. -/
theorem detectHostType_container_priority_witness :
    envToolBoth.run (2 * Second) "systemd-detect-virt" ["--vm"] = .exited 0 ∧
      detectHostType envToolBoth = "container" :=
  ⟨rfl, detectHostType_container_priority envToolBoth rfl⟩

/-- C3: when both queries fail, `/.dockerenv` cannot be examined by `os.Stat`,
`/run/systemd/container` cannot be read and `/proc/1/cgroup` cannot be read or
contains none of the needles, the result is "physical". -/
theorem detectHostType_default_physical (env : Env)
    (hc : env.run (2 * Second) "systemd-detect-virt" ["--container"] ≠ .exited 0)
    (hv : env.run (2 * Second) "systemd-detect-virt" ["--vm"] ≠ .exited 0)
    (hd : ∃ e, env.stat "/.dockerenv" = .error e)
    (hm : ∃ e, env.readFile "/run/systemd/container" = .error e)
    (hg : (∃ e, env.readFile "/proc/1/cgroup" = .error e) ∨
      ∃ s, env.readFile "/proc/1/cgroup" = .ok s ∧ ∀ n ∈ cgroupNeedles, ¬ n <:+: s) :
    detectHostType env = "physical" := by
  have hs : ¬ sentinelPresent env := by
    rintro ⟨st, h, -⟩
    obtain ⟨e, he⟩ := hd
    rw [he] at h
    cases h
  have hmk : ¬ markerPresent env := by
    rintro ⟨b, h, -⟩
    obtain ⟨e, he⟩ := hm
    rw [he] at h
    cases h
  have hcg : ¬ cgroupPresent env := by
    rintro ⟨s, h, n, hn, hin⟩
    rcases hg with ⟨e, he⟩ | ⟨s', hs', hno⟩
    · rw [he] at h
      cases h
    · rw [hs'] at h
      cases h
      exact hno n hn hin
  unfold detectHostType
  rw [(detect_cases env).2.2.2.2.2 hc hv hs hmk hcg]

/-- C3 at the environment without utility and without any of the files. -/
theorem detectHostType_default_physical_witness : detectHostType envBare = "physical" :=
  detectHostType_default_physical envBare (by decide) (by decide) ⟨.notExist, rfl⟩
    ⟨.notExist, rfl⟩ (Or.inl ⟨.notExist, rfl⟩)

/-- C4: the result is "vm" exactly when the `--container` query does not exit
with zero and the `--vm` query does; the three files play no part in it. -/
theorem detectHostType_vm_iff (env : Env) :
    detectHostType env = "vm" ↔
      env.run (2 * Second) "systemd-detect-virt" ["--container"] ≠ .exited 0 ∧
        env.run (2 * Second) "systemd-detect-virt" ["--vm"] = .exited 0 := by
  unfold detectHostType
  rw [detectHostTypeSys_eq]
  unfold containerQueryOK vmQueryOK
  split_ifs <;> simp_all

/-- C5, as the claim states it, fails: a named pipe at `/.dockerenv` is not a
regular file, yet `fileExists` answers true and the result is "container". -/
theorem fileExists_named_pipe_counterexample :
    envPipe.stat "/.dockerenv" = .ok { kind := .namedPipe } ∧
      FileInfo.IsRegular { kind := .namedPipe } = false ∧
      (fileExists "/.dockerenv" envPipe []).1 = true ∧
      detectHostType envPipe = "container" :=
  ⟨rfl, rfl, by decide, by decide⟩

/-- C5, amended: `fileExists "/.dockerenv"` is true exactly when the path can be
examined by `os.Stat` and is not a directory (a regular file, but also a pipe, socket or
device); when both queries fail and it is true the result is "container",
whatever the other two files hold; for an absent path and for a directory it is
false. -/
theorem sentinel_step (env : Env)
    (hc : env.run (2 * Second) "systemd-detect-virt" ["--container"] ≠ .exited 0)
    (hv : env.run (2 * Second) "systemd-detect-virt" ["--vm"] ≠ .exited 0) :
    ((fileExists "/.dockerenv" env []).1 = true ↔
        ∃ st, env.stat "/.dockerenv" = .ok st ∧ st.kind ≠ FileKind.directory) ∧
      ((fileExists "/.dockerenv" env []).1 = true → detectHostType env = "container") ∧
      (env.stat "/.dockerenv" = .error .notExist →
        (fileExists "/.dockerenv" env []).1 = false) ∧
      (env.stat "/.dockerenv" = .ok { kind := .directory } →
        (fileExists "/.dockerenv" env []).1 = false) := by
  refine ⟨fileExists_iff env, ?_, ?_, ?_⟩
  · intro h
    unfold detectHostType
    rw [(detect_cases env).2.2.1 hc hv ((fileExists_iff env).mp h)]
  · intro h
    rw [fileExists_eq, h]
  · intro h
    rw [fileExists_eq, h]
    rfl

/-- C5 amended, at the environment whose `/.dockerenv` is a regular file. -/
theorem sentinel_step_witness :
    (fileExists "/.dockerenv" envDockerenv []).1 = true ∧
      detectHostType envDockerenv = "container" :=
  ⟨by decide, (sentinel_step envDockerenv (by decide) (by decide)).2.1 (by decide)⟩

/-- C6: when both queries fail, the sentinel does not match and the runtime
marker does not match, the result is "container" if and only if
`/proc/1/cgroup` is readable and one of docker, kubepods, containerd, libpod,
podman, lxc occurs in its contents. -/
theorem cgroup_step (env : Env)
    (hc : env.run (2 * Second) "systemd-detect-virt" ["--container"] ≠ .exited 0)
    (hv : env.run (2 * Second) "systemd-detect-virt" ["--vm"] ≠ .exited 0)
    (hs : ¬ ∃ st, env.stat "/.dockerenv" = .ok st ∧ st.kind ≠ FileKind.directory)
    (hm : ∀ b, env.readFile "/run/systemd/container" = .ok b → ∀ c ∈ b, isSpace c = true) :
    detectHostType env = "container" ↔
      ∃ s, env.readFile "/proc/1/cgroup" = .ok s ∧ ∃ n ∈ cgroupNeedles, n <:+: s := by
  have hmk : ¬ markerPresent env := by
    rintro ⟨b, h, c, hcb, hsp⟩
    have := hm b h c hcb
    rw [hsp] at this
    cases this
  unfold detectHostType
  constructor
  · intro h
    by_contra hcg
    rw [(detect_cases env).2.2.2.2.2 hc hv hs hmk hcg] at h
    revert h
    decide
  · intro hcg
    rw [(detect_cases env).2.2.2.2.1 hc hv hs hmk hcg]

/-- C6 at the environment whose `/proc/1/cgroup` names a kubepods path. -/
theorem cgroup_step_witness : detectHostType envKube = "container" :=
  (cgroup_step envKube (by decide) (by decide)
    (by rintro ⟨st, h, -⟩; cases h)
    (by intro b h; cases h)).mpr
    ⟨"12:pids:/kubepods/besteffort/pod1".toList, rfl, "kubepods".toList, by decide, by decide⟩

/-- C7: when both queries fail and the sentinel does not match, a readable
`/run/systemd/container` whose contents are not empty after trimming gives
"container"; when the file is unreadable, empty or all white space, the result
is "container" or "physical" according to the cgroup test alone. -/
theorem runtime_marker_step (env : Env)
    (hc : env.run (2 * Second) "systemd-detect-virt" ["--container"] ≠ .exited 0)
    (hv : env.run (2 * Second) "systemd-detect-virt" ["--vm"] ≠ .exited 0)
    (hs : ¬ ∃ st, env.stat "/.dockerenv" = .ok st ∧ st.kind ≠ FileKind.directory) :
    (∀ b, env.readFile "/run/systemd/container" = .ok b → TrimSpace b ≠ [] →
        detectHostType env = "container") ∧
      ((∀ b, env.readFile "/run/systemd/container" = .ok b → ∀ c ∈ b, isSpace c = true) →
        (detectHostType env = "container" ↔ cgroupPresent env) ∧
        (detectHostType env = "physical" ↔ ¬ cgroupPresent env)) := by
  constructor
  · intro b hb hne
    have hmk : markerPresent env := by
      refine ⟨b, hb, ?_⟩
      rw [← TrimSpace_length_pos_iff]
      exact List.length_pos.mpr hne
    unfold detectHostType
    rw [(detect_cases env).2.2.2.1 hc hv hs hmk]
  · intro hm
    have hmk : ¬ markerPresent env := by
      rintro ⟨b, h, c, hcb, hsp⟩
      have := hm b h c hcb
      rw [hsp] at this
      cases this
    unfold detectHostType
    by_cases hcg : cgroupPresent env
    · rw [(detect_cases env).2.2.2.2.1 hc hv hs hmk hcg]
      simp [hcg]
    · rw [(detect_cases env).2.2.2.2.2 hc hv hs hmk hcg]
      simp [hcg]

/-- C7 at the environment whose runtime marker reads "docker" and a newline. -/
theorem runtime_marker_step_witness : detectHostType envMarker = "container" :=
  (runtime_marker_step envMarker (by decide) (by decide)
    (by rintro ⟨st, h, -⟩; cases h)).1 "docker\n".toList rfl (by decide)

/-- C10: the calls `detectHostType` makes are an initial part of the fixed
sequence (container query, vm query, stat of `/.dockerenv`, read of
`/run/systemd/container`, read of `/proc/1/cgroup`): at most two processes, each
under a deadline of two seconds, and at most three file accesses; the routine
stops at the first step that matches, so a successful container query is the
only call made and a successful vm query leaves the files untouched. -/
theorem detectEffects_short_circuit (env : Env) :
    detectEffects env <+: probeSequence ∧
      (detectEffects env).countP Effect.isSpawn ≤ 2 ∧
      (detectEffects env).countP Effect.isFile ≤ 3 ∧
      (∀ t n a, Effect.spawn t n a ∈ detectEffects env → t = 2000000000) ∧
      (containerQueryOK env →
        detectEffects env = [.spawn (2 * Second) "systemd-detect-virt" ["--container"]]) ∧
      (vmQueryOK env → ∀ e ∈ detectEffects env, e.isFile = false) ∧
      (¬ containerQueryOK env → vmQueryOK env → detectEffects env = probeSequence.take 2) ∧
      (¬ containerQueryOK env → ¬ vmQueryOK env → sentinelPresent env →
        detectEffects env = probeSequence.take 3) ∧
      (¬ containerQueryOK env → ¬ vmQueryOK env → ¬ sentinelPresent env →
        markerPresent env → detectEffects env = probeSequence.take 4) ∧
      (¬ containerQueryOK env → ¬ vmQueryOK env → ¬ sentinelPresent env →
        ¬ markerPresent env → detectEffects env = probeSequence) := by
  have hcases := detect_cases env
  have hpre : ∀ k, probeSequence.take k <+: probeSequence := fun k => List.take_prefix k _
  have key : detectEffects env = probeSequence.take 1 ∨ detectEffects env = probeSequence.take 2 ∨
      detectEffects env = probeSequence.take 3 ∨ detectEffects env = probeSequence.take 4 ∨
      detectEffects env = probeSequence := by
    unfold detectEffects
    rw [detectHostTypeSys_eq]
    split_ifs <;> simp
  refine ⟨?_, ?_, ?_, ?_, ?_, ?_, ?_, ?_, ?_, ?_⟩
  · rcases key with h | h | h | h | h
    · exact h ▸ hpre 1
    · exact h ▸ hpre 2
    · exact h ▸ hpre 3
    · exact h ▸ hpre 4
    · exact h ▸ List.prefix_refl _
  · rcases key with h | h | h | h | h <;> rw [h] <;> decide
  · rcases key with h | h | h | h | h <;> rw [h] <;> decide
  · intro t n a hmem
    rcases key with h | h | h | h | h <;> rw [h] at hmem <;>
      simp [probeSequence, Second] at hmem <;> omega
  · intro h
    unfold detectEffects
    rw [hcases.1 h]
    rfl
  · intro hv e he
    by_cases hc : containerQueryOK env
    · unfold detectEffects at he
      rw [hcases.1 hc] at he
      revert e
      decide
    · unfold detectEffects at he
      rw [hcases.2.1 hc hv] at he
      revert e
      decide
  · intro hc hv
    unfold detectEffects
    rw [hcases.2.1 hc hv]
  · intro hc hv hs
    unfold detectEffects
    rw [hcases.2.2.1 hc hv hs]
  · intro hc hv hs hm
    unfold detectEffects
    rw [hcases.2.2.2.1 hc hv hs hm]
  · intro hc hv hs hm
    unfold detectEffects
    by_cases hcg : cgroupPresent env
    · rw [hcases.2.2.2.2.1 hc hv hs hm hcg]
    · rw [hcases.2.2.2.2.2 hc hv hs hm hcg]

/-- C10 at the environment where the vm query succeeds and the files look like a
container: two processes, no file access, result "vm". -/
theorem detectEffects_short_circuit_witness :
    detectEffects envToolVm =
        [.spawn 2000000000 "systemd-detect-virt" ["--container"],
         .spawn 2000000000 "systemd-detect-virt" ["--vm"]] ∧
      detectHostType envToolVm = "vm" :=
  ⟨(detectEffects_short_circuit envToolVm).2.2.2.2.2.2.1 (by decide) (by decide), by decide⟩

/-! ## Registration and routing -/

theorem mainFinal_mux (env : Env) (v gv la : String) :
    (mainFinal env v gv la).mux =
      [("/", Handler.metricsHandler), ("/metrics", Handler.metricsHandler)] := by
  simp [mainFinal, mainSteps, MainState.init, mustRegister, assignHostType, assignNewGauge,
    gaugeSet, muxHandle, assignServer]

theorem cleanPath_head (p : String) : (cleanPath p).toList.head? = some '/' := by
  unfold cleanPath pathClean
  dsimp only
  split_ifs <;> rfl

theorem muxLookup_main (path : String) (h : path.toList.head? = some '/') :
    muxLookup [("/", Handler.metricsHandler), ("/metrics", Handler.metricsHandler)] path =
      Handler.metricsHandler := by
  unfold muxLookup muxMatch
  by_cases h1 : path = "/"
  · subst h1; rfl
  · by_cases h2 : path = "/metrics"
    · subst h2; rfl
    · have e1 : ("/" == path) = false := beq_eq_false_iff_ne.mpr (Ne.symm h1)
      have e2 : ("/metrics" == path) = false := beq_eq_false_iff_ne.mpr (Ne.symm h2)
      have hp : "/".toList.isPrefixOf path.toList = true := by
        cases hl : path.toList with
        | nil => rw [hl] at h; cases h
        | cons c rest =>
          rw [hl] at h
          simp only [List.head?_cons, Option.some.injEq] at h
          subst h
          show (['/'] : List Char).isPrefixOf ('/' :: rest) = true
          simp [List.isPrefixOf]
      have g1 : "/".toList.getLast? = some '/' := by decide
      have g2 : ("/metrics".toList.getLast? == some '/') = false := by decide
      simp only [List.find?, e1, e2, List.filter, g1, g2, hp, beq_self_eq_true, Bool.and_self,
        Bool.false_and, List.foldl]

theorem shouldRedirect_main (path : String) (h : path.toList.head? = some '/') :
    shouldRedirect [("/", Handler.metricsHandler), ("/metrics", Handler.metricsHandler)] path =
      false := by
  have k1 : ("/".toList == path.toList ++ ['/']) = false := by
    cases hl : path.toList with
    | nil => rw [hl] at h; cases h
    | cons c rest =>
      apply beq_eq_false_iff_ne.mpr
      intro heq
      have := congrArg List.length heq
      simp at this
  have k2 : ("/metrics".toList == path.toList ++ ['/']) = false := by
    apply beq_eq_false_iff_ne.mpr
    intro heq
    have := congrArg List.getLast? heq
    rw [List.getLast?_append] at this
    have e : "/metrics".toList.getLast? = some 's' := by decide
    rw [e] at this
    simp at this
  unfold shouldRedirect
  simp only [List.any, k1, k2, Bool.or_false, Bool.false_eq_true, if_false]
  split_ifs <;> rfl

theorem muxHandler_main (path : String) :
    muxHandler [("/", Handler.metricsHandler), ("/metrics", Handler.metricsHandler)] path =
      if cleanPath path = path then Handler.metricsHandler
      else Handler.redirectHandler (cleanPath path) := by
  unfold muxHandler
  simp only [shouldRedirect_main (cleanPath path) (cleanPath_head path), Bool.false_eq_true,
    if_false]
  by_cases hc : cleanPath path = path
  · have hh : path.toList.head? = some '/' := hc ▸ cleanPath_head path
    simp only [hc, ne_eq, not_true_eq_false, if_false, if_true, muxLookup_main path hh]
  · simp only [hc, ne_eq, not_false_eq_true, if_true, if_false]

theorem mainStates_gather (env : Env) (v gv la : String) :
    (mainStates env v gv la).map gather =
      [[],
       [.processMetrics, .goMetrics],
       [.processMetrics, .goMetrics],
       [.processMetrics, .goMetrics],
       [.processMetrics, .goMetrics],
       [.processMetrics, .goMetrics,
        .gauge "host_environment_info" [("type", detectHostType env)] 1],
       [.processMetrics, .goMetrics,
        .gauge "host_environment_info" [("type", detectHostType env)] 1],
       [.processMetrics, .goMetrics,
        .gauge "host_environment_info" [("type", detectHostType env)] 1],
       [.processMetrics, .goMetrics,
        .gauge "host_environment_info" [("type", detectHostType env)] 1,
        .gauge "metrixd_build_info" [("version", v), ("go_version", gv)] 1],
       [.processMetrics, .goMetrics,
        .gauge "host_environment_info" [("type", detectHostType env)] 1,
        .gauge "metrixd_build_info" [("version", v), ("go_version", gv)] 1],
       [.processMetrics, .goMetrics,
        .gauge "host_environment_info" [("type", detectHostType env)] 1,
        .gauge "metrixd_build_info" [("version", v), ("go_version", gv)] 1],
       [.processMetrics, .goMetrics,
        .gauge "host_environment_info" [("type", detectHostType env)] 1,
        .gauge "metrixd_build_info" [("version", v), ("go_version", gv)] 1]] := by
  simp [mainStates, mainSteps, List.scanl, MainState.init, mustRegister, assignHostType,
    assignNewGauge, gaugeSet, muxHandle, assignServer, gather, NewGauge, Gauge.Set,
    detectHostType, List.lookup, List.filterMap]

theorem mainFinal_gather (env : Env) (v gv la : String) :
    gather (mainFinal env v gv la) =
      [.processMetrics, .goMetrics,
        .gauge "host_environment_info" [("type", detectHostType env)] 1,
        .gauge "metrixd_build_info" [("version", v), ("go_version", gv)] 1] := by
  simp [mainFinal, mainSteps, MainState.init, mustRegister, assignHostType,
    assignNewGauge, gaugeSet, muxHandle, assignServer, gather, NewGauge, Gauge.Set,
    detectHostType, List.lookup, List.filterMap]


/-- C8, as the claim states it, fails: the request path `/foo` is routed to the
metrics handler and answered like `/metrics`, with status 200 and not 404. -/
theorem mux_foo_counterexample :
    muxHandler (mainFinal envBare version "go1.22.0" defaultListenAddr).mux "/foo" =
        Handler.metricsHandler ∧
      (serveHTTP (mainFinal envBare version "go1.22.0" defaultListenAddr) "/foo").status = 200 ∧
      serveHTTP (mainFinal envBare version "go1.22.0" defaultListenAddr) "/foo" =
        serveHTTP (mainFinal envBare version "go1.22.0" defaultListenAddr) "/metrics" := by
  decide

/-- C8, amended: the request paths routed to the metrics handler are exactly the
paths in canonical form, `/`, `/metrics` and every other one such as `/foo`,
since `/` is a subtree pattern: all of them get the response of `/metrics`, the
scrape of the one registry with status 200; a path that is not canonical is
redirected to its canonical form; no path gets the default 404. -/
theorem mux_routes_canonical_paths (env : Env) (v gv la path : String) :
    muxHandler (mainFinal env v gv la).mux "/" = Handler.metricsHandler ∧
      muxHandler (mainFinal env v gv la).mux "/metrics" = Handler.metricsHandler ∧
      serveHTTP (mainFinal env v gv la) "/" = serveHTTP (mainFinal env v gv la) "/metrics" ∧
      serveHTTP (mainFinal env v gv la) "/metrics" =
        { status := 200, location := none, samples := gather (mainFinal env v gv la) } ∧
      (muxHandler (mainFinal env v gv la).mux path = Handler.metricsHandler ↔
        cleanPath path = path) ∧
      (cleanPath path = path →
        serveHTTP (mainFinal env v gv la) path = serveHTTP (mainFinal env v gv la) "/metrics") ∧
      (cleanPath path ≠ path →
        muxHandler (mainFinal env v gv la).mux path =
          Handler.redirectHandler (cleanPath path)) ∧
      (serveHTTP (mainFinal env v gv la) path).status ≠ 404 := by
  have hroot : muxHandler [("/", Handler.metricsHandler), ("/metrics", Handler.metricsHandler)]
      "/" = Handler.metricsHandler := by decide
  have hmet : muxHandler [("/", Handler.metricsHandler), ("/metrics", Handler.metricsHandler)]
      "/metrics" = Handler.metricsHandler := by decide
  have hpath := muxHandler_main path
  simp only [serveHTTP, mainFinal_mux, hroot, hmet, true_and]
  by_cases hc : cleanPath path = path
  · rw [if_pos hc] at hpath
    simp [hpath, hc]
  · rw [if_neg hc] at hpath
    simp [hpath, hc, redirectStatus]

/-- C8 amended, at the canonical path `/foo` and at the path `//foo`, which is
redirected to `/foo`. -/
theorem mux_routes_canonical_paths_witness :
    serveHTTP (mainFinal envKube version "go1.22.0" defaultListenAddr) "/foo" =
        serveHTTP (mainFinal envKube version "go1.22.0" defaultListenAddr) "/metrics" ∧
      muxHandler (mainFinal envKube version "go1.22.0" defaultListenAddr).mux "//foo" =
        Handler.redirectHandler "/foo" :=
  ⟨(mux_routes_canonical_paths envKube version "go1.22.0" defaultListenAddr "/foo").2.2.2.2.2.1
      (by decide),
   (mux_routes_canonical_paths envKube version "go1.22.0" defaultListenAddr "//foo").2.2.2.2.2.2.1
      (by decide)⟩

/-- C9: in every environment the registry `main` serves exposes, next to the two
standard collectors, the gauge `host_environment_info` with value 1 and the single
constant label `type`, set to the result of `detectHostType` (one of the three
classes), and the gauge `metrixd_build_info` with value 1 and the constant labels
`version` and `go_version`; the default version is "dev"; from its registration
on, what a gauge exposes is the same in every later state of `main`. -/
theorem main_registers_info_gauges (env : Env) (v gv la : String) :
    gather (mainFinal env v gv la) =
        [.processMetrics, .goMetrics,
         .gauge "host_environment_info" [("type", detectHostType env)] 1,
         .gauge "metrixd_build_info" [("version", v), ("go_version", gv)] 1] ∧
      (detectHostType env = "container" ∨ detectHostType env = "vm" ∨
        detectHostType env = "physical") ∧
      version = "dev" ∧
      (∀ st ∈ mainStates env v gv la, gather st <+: gather (mainFinal env v gv la)) ∧
      (∀ st ∈ mainStates env v gv la, ∀ n l x, Sample.gauge n l x ∈ gather st → x = 1) := by
  have hall : ∀ st ∈ mainStates env v gv la,
      gather st ∈ (mainStates env v gv la).map gather := fun st hst => List.mem_map_of_mem _ hst
  rw [mainStates_gather] at hall
  refine ⟨mainFinal_gather env v gv la, ?_, rfl, ?_, ?_⟩
  · unfold detectHostType
    rw [detectHostTypeSys_eq]
    split_ifs <;> simp
  · intro st hst
    have := hall st hst
    rw [mainFinal_gather]
    simp only [List.mem_cons, List.mem_singleton, List.not_mem_nil, or_false] at this
    rcases this with h | h | h | h | h | h | h | h | h | h | h | h <;> rw [h] <;>
      simp [List.prefix_iff_eq_take]
  · intro st hst n l x hx
    have := hall st hst
    simp only [List.mem_cons, List.mem_singleton, List.not_mem_nil, or_false] at this
    rcases this with h | h | h | h | h | h | h | h | h | h | h | h <;> rw [h] at hx <;>
      simp at hx <;> omega

end Metrixd
